import Mathlib

/-
  Verification of the agi self-modifying scaffold (src/main.c).

  Shallow embedding conventions:
  - C doubles are modelled as rationals; rand()/RAND_MAX draws are rationals
    in [0, 1], rand() % 5 is an integer in [0, 4].
  - The text resource is a list of lines, each line carrying its trailing
    newline, mirroring the fgets/fputs line-at-a-time processing (lines are
    assumed shorter than the 512-byte buffer).
  - File-I/O failure paths (fopen, rename, mmap) are outside the pure model;
    the embedded functions follow the success paths of the C code.
-/

set_option maxRecDepth 16000

set_option maxHeartbeats 1000000

namespace Agi

/- ===== character and string helpers mirroring the libc calls ===== -/

/-- First argument is a candidate leading segment of the second. -/
def startsWithChars : List Char → List Char → Bool
  | [], _ => true
  | _ :: _, [] => false
  | p :: ps, c :: cs => p == c && startsWithChars ps cs

/-- Model of strstr as a Bool: does the pattern occur inside the string? -/
def containsChars (pat : List Char) : List Char → Bool
  | [] => pat.isEmpty
  | c :: cs => startsWithChars pat (c :: cs) || containsChars pat cs

/-- strstr(s, pat) != NULL. -/
def containsSub (pat s : String) : Bool :=
  containsChars pat.toList s.toList

/-- strncmp(a, b, n) == 0: the first n characters agree. -/
def strncmp0 (a b : String) (n : Nat) : Bool :=
  decide (a.toList.take n = b.toList.take n)

/-- Pointer arithmetic line + n: drop the first n characters. -/
def strDrop (s : String) (n : Nat) : String :=
  String.mk (s.toList.drop n)

/-- The whitespace trim in read_config_from_source: skip spaces and tabs. -/
def trimLead (s : String) : String :=
  String.mk (s.toList.dropWhile (fun c => c == ' ' || c == '\t'))

def isSpaceChar (c : Char) : Bool :=
  c == ' ' || c == '\t' || c == '\n' || c == '\r'

def isDigitChar (c : Char) : Bool :=
  decide (48 ≤ c.toNat) && decide (c.toNat ≤ 57)

def digitVal (c : Char) : Nat := c.toNat - 48

/-- Read a maximal run of decimal digits: value, digit count, rest. -/
def readDigits : List Char → Nat → Nat × Nat × List Char
  | [], acc => (acc, 0, [])
  | c :: cs, acc =>
    if isDigitChar c then
      let r := readDigits cs (acc * 10 + digitVal c)
      (r.1, r.2.1 + 1, r.2.2)
    else (acc, 0, c :: cs)

/-- Digits, optional fraction part.  Stops at the first unexpected char. -/
def parseUnsignedQ (cs : List Char) : ℚ :=
  let r := readDigits cs 0
  match r.2.2 with
  | '.' :: rest2 =>
    let f := readDigits rest2 0
    (r.1 : ℚ) + (f.1 : ℚ) / ((10 ^ f.2.1 : Nat) : ℚ)
  | _ => (r.1 : ℚ)

/-- Model of C atof: skip whitespace, optional sign, digits, optional
fraction.  Exponent notation is not modelled (the codec never writes it).
A string with no leading number (such as the "=0.5" produced by the
off-by-one in parse_config_line) yields 0, as atof does. -/
def atofQ (s : String) : ℚ :=
  match s.toList.dropWhile isSpaceChar with
  | '-' :: cs => - parseUnsignedQ cs
  | '+' :: cs => parseUnsignedQ cs
  | cs => parseUnsignedQ cs

/-- Model of C atoi: skip whitespace, optional sign, digits. -/
def atoiZ (s : String) : Int :=
  match s.toList.dropWhile isSpaceChar with
  | '-' :: cs => - ((readDigits cs 0).1 : Int)
  | '+' :: cs => ((readDigits cs 0).1 : Int)
  | cs => ((readDigits cs 0).1 : Int)

def zeroPad (p : Nat) (s : String) : String :=
  String.mk (List.replicate (p - s.length) '0') ++ s

def fmtFixedNN (prec : Nat) (x : ℚ) : String :=
  let n : Nat := (⌊x * ((10 ^ prec : Nat) : ℚ) + 1 / 2⌋).toNat
  toString (n / 10 ^ prec) ++ "." ++ zeroPad prec (toString (n % 10 ^ prec))

/-- printf %.*f at the given precision (round to nearest; the tie-breaking
of binary doubles is not reached by any value considered here). -/
def fmtFixed (prec : Nat) (x : ℚ) : String :=
  if x < 0 then "-" ++ fmtFixedNN prec (-x) else fmtFixedNN prec x

/- ===== config_t and the config-block parser (main.c lines 52-102) ===== -/

structure config_t where
  learning_rate : ℚ
  mutation_prob : ℚ
  recompile_interval : Int
deriving DecidableEq

def config_defaults : config_t :=
  { learning_rate := 1 / 20, mutation_prob := 1 / 2, recompile_interval := 10 }

/-- parse_config_line (main.c lines 61-73).  Note the C source compares only
13 characters of the 14-character literal "MUTATION_PROB=" and then calls
atof at offset 13, which is the position of the equals sign. -/
def parse_config_line (line : String) (cfg : config_t) : config_t × Bool :=
  if strncmp0 line "LEARNING_RATE=" 14 then
    ({ cfg with learning_rate := atofQ (strDrop line 14) }, true)
  else if strncmp0 line "MUTATION_PROB=" 13 then
    ({ cfg with mutation_prob := atofQ (strDrop line 13) }, true)
  else if strncmp0 line "RECOMPILE_INTERVAL=" 19 then
    ({ cfg with recompile_interval := atoiZ (strDrop line 19) }, true)
  else (cfg, false)

/-- The scanning loop of read_config_from_source: BEGIN_CONFIG sets the
in-block flag, the first END_CONFIG line breaks out (even when no
BEGIN_CONFIG was seen), in-block lines are trimmed and parsed. -/
def read_config_lines : List String → Bool → config_t → config_t
  | [], _, cfg => cfg
  | l :: ls, in_block, cfg =>
    if containsSub "BEGIN_CONFIG" l then read_config_lines ls true cfg
    else if containsSub "END_CONFIG" l then cfg
    else if in_block then
      read_config_lines ls in_block (parse_config_line (trimLead l) cfg).1
    else read_config_lines ls in_block cfg

/-- read_config_from_source (main.c lines 76-102) on the lines of the file. -/
def read_config_from_source (lines : List String) : config_t :=
  read_config_lines lines false config_defaults

/- ===== mutation policy (main.c lines 105-173) ===== -/

/-- The random draws potentially consumed by one mutate_source_config call.
The C code draws them sequentially and skips the jitter draws whose gate
did not fire; passing all of them and ignoring the unused ones is
extensionally the same.  u-fields model rand()/RAND_MAX, d5 models
rand() % 5. -/
structure MutDraws where
  u1 : ℚ
  g1 : ℚ
  u2 : ℚ
  g2 : ℚ
  u3 : ℚ
  g3 : ℚ
  d5 : Int
deriving DecidableEq

/-- New learning rate (main.c lines 130-136): an unconditional multiplicative
jitter of the DEFAULT learning rate, then a gated second jitter with a
positivity clamp. -/
def mutate_lr_val (mp : ℚ) (dr : MutDraws) : ℚ :=
  let lr := config_defaults.learning_rate * (1 + (dr.u1 - 1 / 2) * (1 / 2))
  if dr.g1 < mp then
    let lr2 := lr * (1 + (dr.u2 - 1 / 2) * (1 / 2))
    if lr2 ≤ 0 then 1 / 1000 else lr2
  else lr

/-- New mutation probability (main.c lines 137-140): the DEFAULT, with a
gated additive jitter clamped into [0.01, 0.99]. -/
def mutate_mp_val (mp : ℚ) (dr : MutDraws) : ℚ :=
  if dr.g2 < mp then
    min (99 / 100) (max (1 / 100) (config_defaults.mutation_prob + (dr.u3 - 1 / 2) * (1 / 5)))
  else config_defaults.mutation_prob

/-- New recompile interval (main.c lines 141-145): the DEFAULT, with a gated
integer jitter in [-2, 2] clamped to at least 1. -/
def mutate_ri_val (mp : ℚ) (dr : MutDraws) : Int :=
  if dr.g3 < mp then max 1 (config_defaults.recompile_interval + (dr.d5 - 2))
  else config_defaults.recompile_interval

/-- The three replacement lines written into the block (main.c lines 147-149). -/
def config_block_lines (mp : ℚ) (dr : MutDraws) : List String :=
  [ "LEARNING_RATE=" ++ fmtFixed 6 (mutate_lr_val mp dr) ++ "\n",
    "MUTATION_PROB=" ++ fmtFixed 6 (mutate_mp_val mp dr) ++ "\n",
    "RECOMPILE_INTERVAL=" ++ toString (mutate_ri_val mp dr) ++ "\n" ]

/-- The hardcoded end-marker line written by mutate_source_config
(main.c line 151); the original end-marker line is discarded. -/
def END_LINE : String := "  ===== END_CONFIG */\n"

/-- The inner discard loop: drop lines until one containing END_CONFIG has
been consumed; the remainder is copied verbatim. -/
def skipToEnd : List String → List String
  | [] => []
  | l :: ls => if containsSub "END_CONFIG" l then ls else skipToEnd ls

/-- The copy loop of mutate_source_config: lines before the first
BEGIN_CONFIG line are copied; that line is copied, the old block is
discarded, the fresh block and the hardcoded end marker are emitted, and
everything after the old end marker is copied. -/
def mutate_lines (mp : ℚ) (dr : MutDraws) : List String → List String
  | [] => []
  | l :: ls =>
    if containsSub "BEGIN_CONFIG" l then
      l :: (config_block_lines mp dr ++ (END_LINE :: skipToEnd ls))
    else l :: mutate_lines mp dr ls

/-- mutate_source_config (main.c lines 105-173) on the success path of the
file I/O: the rewritten lines, and the Bool the function returns. -/
def mutate_source_config (lines : List String) (mp : ℚ) (dr : MutDraws) :
    List String × Bool :=
  (mutate_lines mp dr lines, true)

/- ===== the durable STM record (main.c lines 32-49, 176-207) ===== -/

structure stm_t where
  magic : Nat
  version : Nat
  iter : Nat
  weight : ℚ
  bias : ℚ
  running_reward : ℚ
  scratch : String
deriving DecidableEq

def STM_MAGIC : Nat := 0xA51A6F257F3C1B

def STM_VERSION : Nat := 1

/-- The record written by map_stm_file on magic or version mismatch
(main.c lines 195-205). -/
def freshSTM : stm_t :=
  { magic := STM_MAGIC, version := STM_VERSION, iter := 0,
    weight := 1 / 10, bias := 0, running_reward := 0, scratch := "fresh" }

/-- map_stm_file on the mapped file content: a record whose magic or version
does not match is reinitialized; otherwise it is kept as is.  The fatal
open/ftruncate/mmap failures are outside the pure model. -/
def map_stm_file (file : stm_t) : stm_t :=
  if file.magic = STM_MAGIC ∧ file.version = STM_VERSION then file else freshSTM

/- ===== the learner (main.c lines 210-223) ===== -/

/-- forward (main.c lines 210-212): score = weight * x + bias. -/
def forward (s : stm_t) (x : ℚ) : ℚ :=
  s.weight * x + s.bias

/-- update_weights (main.c lines 215-223): delta rule plus the running-reward
moving average.  The error is computed once, before either parameter moves. -/
def update_weights (s : stm_t) (x reward lr : ℚ) : stm_t :=
  let pred := forward s x
  let error := reward - pred
  { s with
    weight := s.weight + lr * error * x,
    bias := s.bias + lr * error * 1,
    running_reward := 99 / 100 * s.running_reward + 1 / 100 * reward }

/-- toy_environment_reward (main.c lines 259-264).  iter is assumed below
2^31 so the (int) cast in C is the identity. -/
def toy_environment_reward (iter : Nat) (action_value : ℚ) : ℚ :=
  let target : Int := if iter % 10 < 5 then 1 else -1
  let act : Int := if 0 ≤ action_value then 1 else -1
  if act = target then 1 else -1

/-- The human-readable scratch line written each tick (main.c lines 299-300);
the 256-byte truncation is never reached by the values considered here. -/
def scratchLine (s : stm_t) : String :=
  "iter=" ++ toString s.iter ++ " w=" ++ fmtFixed 6 s.weight ++
    " b=" ++ fmtFixed 6 s.bias ++ " rr=" ++ fmtFixed 4 s.running_reward

/- ===== the self-replacement controller (main.c lines 226-254) ===== -/

/-- Outcome of recompile_and_exec: make failed or verification failed (the
function returns and the loop continues), execl succeeded (the process image
is replaced), or execl itself failed (exit(1)). -/
inductive ExecOutcome where
  | returned : ExecOutcome
  | replacedProc : ExecOutcome
  | fatalExec : ExecOutcome
deriving DecidableEq

/-- recompile_and_exec (main.c lines 226-254) as a function of the external
outcomes: the make exit status, the chmod result, the access X_OK check, and
whether execl succeeds.  It never touches the text resource. -/
def recompile_and_exec (buildOk chmodOk accessOk execOk : Bool) : ExecOutcome :=
  if buildOk = false then ExecOutcome.returned
  else if chmodOk = false then ExecOutcome.returned
  else if accessOk = false then ExecOutcome.returned
  else if execOk then ExecOutcome.replacedProc
  else ExecOutcome.fatalExec

/- ===== the tick loop (main.c lines 267-331) ===== -/

/-- In-memory state of one generation: the mapped durable record, the text
resource, and the config the process read at startup or after a check. -/
structure SysState where
  stm : stm_t
  text : List String
  cfg : config_t
deriving DecidableEq

/-- External inputs of one tick: the trigger-gate draw r (main.c line 309),
the draws a mutation would consume, and the outcomes of the external build,
chmod, access and execl calls. -/
structure TickIn where
  r : ℚ
  dr : MutDraws
  buildOk : Bool
  chmodOk : Bool
  accessOk : Bool
  execOk : Bool
deriving DecidableEq

/-- The trigger condition (main.c line 308):
(stm->iter > 0) && ((stm->iter % cfg.recompile_interval) == 0).  In C the
interval is converted to uint64 for the %; the model is meaningful for
positive intervals (interval 0 is undefined behavior in C). -/
def trigger_fires (it : Nat) (ri : Int) : Bool :=
  decide (0 < it) && decide (it % ri.toNat = 0)

/-- The learner part of one tick (main.c lines 290-301): derive x from the
iteration count, predict, get the toy reward, update, write scratch. -/
def stm_after_learn (s : SysState) : stm_t :=
  let it := s.stm.iter
  let x : ℚ := ((it % 10 : Nat) : ℚ) - 9 / 2
  let out := forward s.stm x
  let reward := toy_environment_reward it out
  let stm1 := update_weights s.stm x reward s.cfg.learning_rate
  { stm1 with scratch := scratchLine stm1 }

/-- Result of one tick: continue the loop, the process image was replaced
(iteration NOT yet incremented — exec happens before stm->iter++), or the
process exited with the given status. -/
inductive TickOut where
  | normal : SysState → TickOut
  | replacedOut : SysState → TickOut
  | fatalOut : SysState → Nat → TickOut
deriving DecidableEq

/-- One iteration of the main loop (main.c lines 288-328). -/
def tick (s : SysState) (i : TickIn) : TickOut :=
  let stm1 := stm_after_learn s
  if trigger_fires s.stm.iter s.cfg.recompile_interval = true then
    if i.r < s.cfg.mutation_prob then
      let m := mutate_source_config s.text s.cfg.mutation_prob i.dr
      if m.2 = true then
        match recompile_and_exec i.buildOk i.chmodOk i.accessOk i.execOk with
        | ExecOutcome.replacedProc => TickOut.replacedOut ⟨stm1, m.1, s.cfg⟩
        | ExecOutcome.fatalExec => TickOut.fatalOut ⟨stm1, m.1, s.cfg⟩ 1
        | ExecOutcome.returned =>
          TickOut.normal ⟨{ stm1 with iter := s.stm.iter + 1 }, m.1,
            read_config_from_source m.1⟩
      else
        TickOut.normal ⟨{ stm1 with iter := s.stm.iter + 1 }, s.text,
          read_config_from_source s.text⟩
    else
      TickOut.normal ⟨{ stm1 with iter := s.stm.iter + 1 }, s.text,
        read_config_from_source s.text⟩
  else TickOut.normal ⟨{ stm1 with iter := s.stm.iter + 1 }, s.text, s.cfg⟩

/-- The fallback applied in main after reading the config
(main.c lines 281-282): a non-positive interval is replaced by the default. -/
def cfg_repair (c : config_t) : config_t :=
  if c.recompile_interval ≤ 0 then
    { c with recompile_interval := config_defaults.recompile_interval }
  else c

/-- Startup of a generation (main.c lines 270-282): map the persisted record,
read the config from the text resource, repair the interval. -/
def startGen (s : SysState) : SysState :=
  ⟨map_stm_file s.stm, s.text, cfg_repair (read_config_from_source s.text)⟩

/-- The state from which execution continues after a tick: the next loop
iteration, the freshly started replacement generation, or the state at which
the process died. -/
def contState : TickOut → SysState
  | TickOut.normal s => s
  | TickOut.replacedOut s => startGen s
  | TickOut.fatalOut s _ => s

def tickReplaced : TickOut → Bool
  | TickOut.replacedOut _ => true
  | _ => false

/-- Run a sequence of ticks, crossing process replacements, stopping if the
process exits. -/
def runTicks : SysState → List TickIn → SysState
  | s, [] => s
  | s, i :: is =>
    match tick s i with
    | TickOut.normal s2 => runTicks s2 is
    | TickOut.replacedOut s2 => runTicks (startGen s2) is
    | TickOut.fatalOut s2 _ => s2

/- ===== helper lemmas about the parser ===== -/

lemma parse_keeps_lr (line : String) (cfg : config_t)
    (h : strncmp0 line "LEARNING_RATE=" 14 = false) :
    (parse_config_line line cfg).1.learning_rate = cfg.learning_rate := by
  unfold parse_config_line
  split
  · simp_all
  · split
    · rfl
    · split
      · rfl
      · rfl

lemma parse_keeps_mp (line : String) (cfg : config_t)
    (h : strncmp0 line "MUTATION_PROB=" 13 = false) :
    (parse_config_line line cfg).1.mutation_prob = cfg.mutation_prob := by
  unfold parse_config_line
  split
  · rfl
  · split
    · simp_all
    · split
      · rfl
      · rfl

lemma parse_keeps_ri (line : String) (cfg : config_t)
    (h : strncmp0 line "RECOMPILE_INTERVAL=" 19 = false) :
    (parse_config_line line cfg).1.recompile_interval = cfg.recompile_interval := by
  unfold parse_config_line
  split
  · rfl
  · split
    · rfl
    · split
      · simp_all
      · rfl

lemma read_keeps_lr :
    ∀ (lines : List String) (inb : Bool) (cfg : config_t),
      (∀ l ∈ lines, strncmp0 (trimLead l) "LEARNING_RATE=" 14 = false) →
      (read_config_lines lines inb cfg).learning_rate = cfg.learning_rate := by
  intro lines
  induction lines with
  | nil => intro inb cfg _; rfl
  | cons l ls ih =>
    intro inb cfg h
    have hl := h l (List.mem_cons_self l ls)
    have hls : ∀ x ∈ ls, strncmp0 (trimLead x) "LEARNING_RATE=" 14 = false :=
      fun x hx => h x (List.mem_cons_of_mem l hx)
    unfold read_config_lines
    split
    · exact ih true cfg hls
    · split
      · rfl
      · split
        · rw [ih inb _ hls, parse_keeps_lr _ _ hl]
        · exact ih inb cfg hls

lemma read_keeps_mp :
    ∀ (lines : List String) (inb : Bool) (cfg : config_t),
      (∀ l ∈ lines, strncmp0 (trimLead l) "MUTATION_PROB=" 13 = false) →
      (read_config_lines lines inb cfg).mutation_prob = cfg.mutation_prob := by
  intro lines
  induction lines with
  | nil => intro inb cfg _; rfl
  | cons l ls ih =>
    intro inb cfg h
    have hl := h l (List.mem_cons_self l ls)
    have hls : ∀ x ∈ ls, strncmp0 (trimLead x) "MUTATION_PROB=" 13 = false :=
      fun x hx => h x (List.mem_cons_of_mem l hx)
    unfold read_config_lines
    split
    · exact ih true cfg hls
    · split
      · rfl
      · split
        · rw [ih inb _ hls, parse_keeps_mp _ _ hl]
        · exact ih inb cfg hls

lemma read_keeps_ri :
    ∀ (lines : List String) (inb : Bool) (cfg : config_t),
      (∀ l ∈ lines, strncmp0 (trimLead l) "RECOMPILE_INTERVAL=" 19 = false) →
      (read_config_lines lines inb cfg).recompile_interval = cfg.recompile_interval := by
  intro lines
  induction lines with
  | nil => intro inb cfg _; rfl
  | cons l ls ih =>
    intro inb cfg h
    have hl := h l (List.mem_cons_self l ls)
    have hls : ∀ x ∈ ls, strncmp0 (trimLead x) "RECOMPILE_INTERVAL=" 19 = false :=
      fun x hx => h x (List.mem_cons_of_mem l hx)
    unfold read_config_lines
    split
    · exact ih true cfg hls
    · split
      · rfl
      · split
        · rw [ih inb _ hls, parse_keeps_ri _ _ hl]
        · exact ih inb cfg hls

lemma read_no_begin :
    ∀ (lines : List String) (cfg : config_t),
      (∀ l ∈ lines, containsSub "BEGIN_CONFIG" l = false) →
      read_config_lines lines false cfg = cfg := by
  intro lines
  induction lines with
  | nil => intro cfg _; rfl
  | cons l ls ih =>
    intro cfg h
    have hl := h l (List.mem_cons_self l ls)
    have hls : ∀ x ∈ ls, containsSub "BEGIN_CONFIG" x = false :=
      fun x hx => h x (List.mem_cons_of_mem l hx)
    unfold read_config_lines
    split
    · simp_all
    · split
      · rfl
      · split
        · simp_all
        · exact ih cfg hls

/- ===== helper lemmas about the rewriter ===== -/

lemma skipToEnd_append (mid : List String) (e : String) (post : List String)
    (hmid : ∀ l ∈ mid, containsSub "END_CONFIG" l = false)
    (he : containsSub "END_CONFIG" e = true) :
    skipToEnd (mid ++ e :: post) = post := by
  induction mid with
  | nil => simp [skipToEnd, he]
  | cons a as ih =>
    have ha := hmid a (List.mem_cons_self a as)
    have has : ∀ x ∈ as, containsSub "END_CONFIG" x = false :=
      fun x hx => hmid x (List.mem_cons_of_mem a hx)
    simp only [List.cons_append, skipToEnd, ha]
    simpa using ih has

lemma mutate_lines_shape (mp : ℚ) (dr : MutDraws)
    (pre : List String) (b : String) (mid : List String) (e : String)
    (post : List String)
    (hpre : ∀ l ∈ pre, containsSub "BEGIN_CONFIG" l = false)
    (hb : containsSub "BEGIN_CONFIG" b = true)
    (hmid : ∀ l ∈ mid, containsSub "END_CONFIG" l = false)
    (he : containsSub "END_CONFIG" e = true) :
    mutate_lines mp dr (pre ++ b :: (mid ++ e :: post)) =
      pre ++ b :: (config_block_lines mp dr ++ (END_LINE :: post)) := by
  induction pre with
  | nil =>
    simp only [List.nil_append, mutate_lines, hb, if_true]
    rw [skipToEnd_append mid e post hmid he]
  | cons a as ih =>
    have ha := hpre a (List.mem_cons_self a as)
    have has : ∀ x ∈ as, containsSub "BEGIN_CONFIG" x = false :=
      fun x hx => hpre x (List.mem_cons_of_mem a hx)
    simp only [List.cons_append, mutate_lines, ha]
    simp only [Bool.false_eq_true, if_false, List.cons.injEq, true_and]
    exact ih has

lemma mutate_lines_id (mp : ℚ) (dr : MutDraws) :
    ∀ (lines : List String),
      (∀ l ∈ lines, containsSub "BEGIN_CONFIG" l = false) →
      mutate_lines mp dr lines = lines := by
  intro lines
  induction lines with
  | nil => intro _; rfl
  | cons l ls ih =>
    intro h
    have hl := h l (List.mem_cons_self l ls)
    have hls : ∀ x ∈ ls, containsSub "BEGIN_CONFIG" x = false :=
      fun x hx => h x (List.mem_cons_of_mem l hx)
    simp only [mutate_lines, hl, Bool.false_eq_true, if_false, List.cons.injEq,
      true_and]
    exact ih hls

/- ===== helper lemmas about the tick machine ===== -/

lemma stm_after_learn_magic (s : SysState) :
    (stm_after_learn s).magic = s.stm.magic := rfl

lemma stm_after_learn_version (s : SysState) :
    (stm_after_learn s).version = s.stm.version := rfl

lemma stm_after_learn_iter (s : SysState) :
    (stm_after_learn s).iter = s.stm.iter := rfl

lemma startGen_stm (s : SysState) (hm : s.stm.magic = STM_MAGIC)
    (hv : s.stm.version = STM_VERSION) :
    (startGen s).stm = s.stm := by
  simp [startGen, map_stm_file, hm, hv]

lemma tick_not_fired (s : SysState) (i : TickIn)
    (h : trigger_fires s.stm.iter s.cfg.recompile_interval = false) :
    tick s i = TickOut.normal
      ⟨{ stm_after_learn s with iter := s.stm.iter + 1 }, s.text, s.cfg⟩ := by
  simp [tick, h]

lemma tick_fired_no_mut (s : SysState) (i : TickIn)
    (ht : trigger_fires s.stm.iter s.cfg.recompile_interval = true)
    (hr : s.cfg.mutation_prob ≤ i.r) :
    tick s i = TickOut.normal
      ⟨{ stm_after_learn s with iter := s.stm.iter + 1 }, s.text,
        read_config_from_source s.text⟩ := by
  simp [tick, ht, not_lt.mpr hr]

lemma tick_mut_returned (s : SysState) (i : TickIn)
    (ht : trigger_fires s.stm.iter s.cfg.recompile_interval = true)
    (hr : i.r < s.cfg.mutation_prob)
    (hre : recompile_and_exec i.buildOk i.chmodOk i.accessOk i.execOk =
      ExecOutcome.returned) :
    tick s i = TickOut.normal
      ⟨{ stm_after_learn s with iter := s.stm.iter + 1 },
        (mutate_source_config s.text s.cfg.mutation_prob i.dr).1,
        read_config_from_source
          (mutate_source_config s.text s.cfg.mutation_prob i.dr).1⟩ := by
  simp [tick, ht, hr, hre, mutate_source_config]

lemma tick_mut_fatal (s : SysState) (i : TickIn)
    (ht : trigger_fires s.stm.iter s.cfg.recompile_interval = true)
    (hr : i.r < s.cfg.mutation_prob)
    (hre : recompile_and_exec i.buildOk i.chmodOk i.accessOk i.execOk =
      ExecOutcome.fatalExec) :
    tick s i = TickOut.fatalOut
      ⟨stm_after_learn s,
        (mutate_source_config s.text s.cfg.mutation_prob i.dr).1, s.cfg⟩ 1 := by
  simp [tick, ht, hr, hre, mutate_source_config]

lemma tick_mut_replaced (s : SysState) (i : TickIn)
    (ht : trigger_fires s.stm.iter s.cfg.recompile_interval = true)
    (hr : i.r < s.cfg.mutation_prob)
    (hre : recompile_and_exec i.buildOk i.chmodOk i.accessOk i.execOk =
      ExecOutcome.replacedProc) :
    tick s i = TickOut.replacedOut
      ⟨stm_after_learn s,
        (mutate_source_config s.text s.cfg.mutation_prob i.dr).1, s.cfg⟩ := by
  simp [tick, ht, hr, hre, mutate_source_config]

lemma tick_mut_build_fail (s : SysState) (i : TickIn)
    (ht : trigger_fires s.stm.iter s.cfg.recompile_interval = true)
    (hr : i.r < s.cfg.mutation_prob) (hb : i.buildOk = false) :
    tick s i = TickOut.normal
      ⟨{ stm_after_learn s with iter := s.stm.iter + 1 },
        (mutate_source_config s.text s.cfg.mutation_prob i.dr).1,
        read_config_from_source
          (mutate_source_config s.text s.cfg.mutation_prob i.dr).1⟩ := by
  exact tick_mut_returned s i ht hr (by simp [recompile_and_exec, hb])

lemma tick_mut_exec_fail (s : SysState) (i : TickIn)
    (ht : trigger_fires s.stm.iter s.cfg.recompile_interval = true)
    (hr : i.r < s.cfg.mutation_prob) (hb : i.buildOk = true)
    (hc : i.chmodOk = true) (ha : i.accessOk = true) (he : i.execOk = false) :
    tick s i = TickOut.fatalOut
      ⟨stm_after_learn s,
        (mutate_source_config s.text s.cfg.mutation_prob i.dr).1, s.cfg⟩ 1 := by
  exact tick_mut_fatal s i ht hr (by simp [recompile_and_exec, hb, hc, ha, he])

lemma tick_iter_cases (s : SysState) (i : TickIn) :
    (∃ s2, tick s i = TickOut.normal s2 ∧ s2.stm.iter = s.stm.iter + 1 ∧
      s2.stm.magic = s.stm.magic ∧ s2.stm.version = s.stm.version)
    ∨ (∃ s2, tick s i = TickOut.replacedOut s2 ∧ s2.stm.iter = s.stm.iter ∧
      s2.stm.magic = s.stm.magic ∧ s2.stm.version = s.stm.version)
    ∨ (∃ s2 c, tick s i = TickOut.fatalOut s2 c ∧ s2.stm.iter = s.stm.iter ∧
      s2.stm.magic = s.stm.magic ∧ s2.stm.version = s.stm.version) := by
  cases htr : trigger_fires s.stm.iter s.cfg.recompile_interval with
  | false => exact Or.inl ⟨_, tick_not_fired s i htr, rfl, rfl, rfl⟩
  | true =>
    by_cases hrm : i.r < s.cfg.mutation_prob
    · cases hre : recompile_and_exec i.buildOk i.chmodOk i.accessOk i.execOk with
      | returned =>
        exact Or.inl ⟨_, tick_mut_returned s i htr hrm hre, rfl, rfl, rfl⟩
      | replacedProc =>
        exact Or.inr (Or.inl ⟨_, tick_mut_replaced s i htr hrm hre, rfl, rfl, rfl⟩)
      | fatalExec =>
        exact Or.inr (Or.inr ⟨_, _, tick_mut_fatal s i htr hrm hre, rfl, rfl, rfl⟩)
    · exact Or.inl ⟨_, tick_fired_no_mut s i htr (not_lt.mp hrm), rfl, rfl, rfl⟩

lemma runTicks_iter_mono :
    ∀ (ins : List TickIn) (s : SysState),
      s.stm.magic = STM_MAGIC → s.stm.version = STM_VERSION →
      s.stm.iter ≤ (runTicks s ins).stm.iter := by
  intro ins
  induction ins with
  | nil => intro s _ _; exact le_refl _
  | cons i is ih =>
    intro s hm hv
    rcases tick_iter_cases s i with ⟨s2, ht, hit, hmg, hvr⟩ |
      ⟨s2, ht, hit, hmg, hvr⟩ | ⟨s2, c, ht, hit, hmg, hvr⟩
    · have hrw : runTicks s (i :: is) = runTicks s2 is := by
        simp [runTicks, ht]
      rw [hrw]
      have := ih s2 (by rw [hmg, hm]) (by rw [hvr, hv])
      omega
    · have hrw : runTicks s (i :: is) = runTicks (startGen s2) is := by
        simp [runTicks, ht]
      rw [hrw]
      have hs : (startGen s2).stm = s2.stm :=
        startGen_stm s2 (by rw [hmg, hm]) (by rw [hvr, hv])
      have := ih (startGen s2) (by rw [hs, hmg, hm]) (by rw [hs, hvr, hv])
      rw [hs] at this
      omega
    · have hrw : runTicks s (i :: is) = s2 := by
        simp [runTicks, ht]
      rw [hrw]
      omega

lemma trigger_iff (it : Nat) (ri : Int) (h : 0 < ri) :
    trigger_fires it ri = true ↔ it ≠ 0 ∧ (ri ∣ (it : Int)) := by
  simp only [trigger_fires, Bool.and_eq_true, decide_eq_true_eq]
  constructor
  · rintro ⟨h1, h2⟩
    refine ⟨by omega, ?_⟩
    have h3 : ri.toNat ∣ it := Nat.dvd_of_mod_eq_zero h2
    have h4 : ((ri.toNat : Int)) ∣ (it : Int) := Int.natCast_dvd_natCast.mpr h3
    rwa [Int.toNat_of_nonneg (by omega)] at h4
  · rintro ⟨h1, h2⟩
    refine ⟨by omega, ?_⟩
    have h3 : ((ri.toNat : Int)) ∣ (it : Int) := by
      rwa [Int.toNat_of_nonneg (by omega)]
    exact Nat.mod_eq_zero_of_dvd (Int.natCast_dvd_natCast.mp h3)

/-- The three key prefixes are mutually exclusive: a line whose first 13
characters read MUTATION_PROB cannot also start with LEARNING_RATE=. -/
lemma mp13_not_lr14 (line : String)
    (h : strncmp0 line "MUTATION_PROB=" 13 = true) :
    strncmp0 line "LEARNING_RATE=" 14 = false := by
  unfold strncmp0 at h ⊢
  have h1 := of_decide_eq_true h
  rw [decide_eq_false_iff_not]
  intro h2
  have h3 : (line.toList.take 14).take 13 = line.toList.take 13 := by
    rw [List.take_take]
    norm_num
  rw [h2, h1] at h3
  exact absurd h3 (by decide)

lemma ri19_not_lr14 (line : String)
    (h : strncmp0 line "RECOMPILE_INTERVAL=" 19 = true) :
    strncmp0 line "LEARNING_RATE=" 14 = false := by
  unfold strncmp0 at h ⊢
  have h1 := of_decide_eq_true h
  rw [decide_eq_false_iff_not]
  intro h2
  have h3 : (line.toList.take 19).take 14 = line.toList.take 14 := by
    rw [List.take_take]
    norm_num
  rw [h1, h2] at h3
  exact absurd h3 (by decide)

lemma ri19_not_mp13 (line : String)
    (h : strncmp0 line "RECOMPILE_INTERVAL=" 19 = true) :
    strncmp0 line "MUTATION_PROB=" 13 = false := by
  unfold strncmp0 at h ⊢
  have h1 := of_decide_eq_true h
  rw [decide_eq_false_iff_not]
  intro h2
  have h3 : (line.toList.take 19).take 13 = line.toList.take 13 := by
    rw [List.take_take]
    norm_num
  rw [h1, h2] at h3
  exact absurd h3 (by decide)

/-- The text carried in a tick result (the content of the resource file after
the tick, before any replacement generation re-reads it). -/
def contText : TickOut → List String
  | TickOut.normal s => s.text
  | TickOut.replacedOut s => s.text
  | TickOut.fatalOut s _ => s.text

/- ===== concrete inputs used by the claim instances ===== -/

/-- Draws for which none of the three mutation gates fires when the gate
threshold is at most 1, and whose unconditional learning-rate jitter is the
identity (u1 = 1/2). -/
def drNoFire : MutDraws :=
  { u1 := 1 / 2, g1 := 1, u2 := 1 / 2, g2 := 1, u3 := 1 / 2, g3 := 1, d5 := 0 }

def exC1text : List String :=
  [ "int x;\n", "/* ===== BEGIN_CONFIG\n", "LEARNING_RATE=0.05\n",
    "MUTATION_PROB=0.50\n", "RECOMPILE_INTERVAL=10\n",
    "  ===== END_CONFIG */\n", "int y;\n" ]

def exC2text : List String :=
  [ "/* ===== BEGIN_CONFIG\n", "LEARNING_RATE=0.080000\n",
    "RECOMPILE_INTERVAL=7\n", "  ===== END_CONFIG */\n" ]

def exC3text : List String :=
  [ "/* ===== BEGIN_CONFIG\n", "LEARNING_RATE=abc\n", "MUTATION_PROB=0.30\n",
    "RECOMPILE_INTERVAL=7\n", "  ===== END_CONFIG */\n" ]

def exC3noMP : List String :=
  [ "header\n", "/* ===== BEGIN_CONFIG\n", "LEARNING_RATE=0.07\n",
    "RECOMPILE_INTERVAL=7\n", "  ===== END_CONFIG */\n", "rest\n" ]

def exC4text : List String :=
  [ "a\n", "x BEGIN_CONFIG\n", "LEARNING_RATE=0.05\n", "END_CONFIG here\n",
    "z\n" ]

/- ===== claim C1 ===== -/

/-- Claim C1: the codec round-trip fails on the code.  The config block
written by mutate_source_config contains the line MUTATION_PROB=0.500000,
yet read_config_from_source parses the rewritten text back with
mutation_prob = 0 (parse_config_line compares only 13 characters of
"MUTATION_PROB=" and then reads the number starting at the equals sign,
so atof sees "=0.500000" and returns 0); the other two fields do round-trip.
This evaluates the code at the failing input of the round-trip law. -/
theorem C1_mutation_prob_not_round_tripped :
    "MUTATION_PROB=0.500000\n" ∈ (mutate_source_config exC1text (1 / 2) drNoFire).1
    ∧ (read_config_from_source
        (mutate_source_config exC1text (1 / 2) drNoFire).1).mutation_prob = 0
    ∧ (read_config_from_source
        (mutate_source_config exC1text (1 / 2) drNoFire).1).learning_rate = 1 / 20
    ∧ (read_config_from_source
        (mutate_source_config exC1text (1 / 2) drNoFire).1).recompile_interval = 10
    ∧ (0 : ℚ) ≠ 1 / 2 := by
  with_unfolding_all decide

/- ===== claim C2 ===== -/

/-- Claim C2 counterexample: the mutation policy does not act on the current
configuration.  In exC2text the current recompile interval is 7 and no
mutation gate fires under drNoFire (all gates are 1, above the probability
1/2 read from the text), so by the claim the interval line should still read
7; the code instead writes 10, the built-in default. -/
theorem C2_counterexample :
    (read_config_from_source exC2text).recompile_interval = 7
    ∧ (read_config_from_source exC2text).mutation_prob = 1 / 2
    ∧ ¬(drNoFire.g3 < (1 : ℚ) / 2)
    ∧ "RECOMPILE_INTERVAL=10\n" ∈ (mutate_source_config exC2text (1 / 2) drNoFire).1
    ∧ "RECOMPILE_INTERVAL=7\n" ∉ (mutate_source_config exC2text (1 / 2) drNoFire).1 := by
  with_unfolding_all decide

/-- Claim C2 (amended): the replacement block written into any well-formed
region is computed from the built-in defaults and the random draws alone —
the region's current contents (mid) do not appear in the result.  The
learning rate is always jittered once from the default even when its gate
does not fire; a field whose gate does not fire is written as its default
(not as its current value). -/
theorem C2_amended_mutation_from_defaults (mp : ℚ) (dr : MutDraws)
    (pre : List String) (b : String) (mid : List String) (e : String)
    (post : List String)
    (hpre : ∀ l ∈ pre, containsSub "BEGIN_CONFIG" l = false)
    (hb : containsSub "BEGIN_CONFIG" b = true)
    (hmid : ∀ l ∈ mid, containsSub "END_CONFIG" l = false)
    (he : containsSub "END_CONFIG" e = true) :
    (mutate_source_config (pre ++ b :: (mid ++ e :: post)) mp dr).1 =
      pre ++ b :: (config_block_lines mp dr ++ (END_LINE :: post))
    ∧ (mp ≤ dr.g1 →
        mutate_lr_val mp dr =
          config_defaults.learning_rate * (1 + (dr.u1 - 1 / 2) * (1 / 2)))
    ∧ (mp ≤ dr.g2 → mutate_mp_val mp dr = config_defaults.mutation_prob)
    ∧ (mp ≤ dr.g3 → mutate_ri_val mp dr = config_defaults.recompile_interval) := by
  refine ⟨?_, ?_, ?_, ?_⟩
  · exact mutate_lines_shape mp dr pre b mid e post hpre hb hmid he
  · intro h; simp [mutate_lr_val, not_lt.mpr h]
  · intro h; simp [mutate_mp_val, not_lt.mpr h]
  · intro h; simp [mutate_ri_val, not_lt.mpr h]

/-- Claim C2 witness: the amended statement at a concrete region. -/
theorem C2_amended_witness :
    (mutate_source_config
        (["a\n"] ++ "/* ===== BEGIN_CONFIG\n" ::
          (["LEARNING_RATE=0.080000\n"] ++ "  ===== END_CONFIG */\n" :: ["z\n"]))
        (1 / 2) drNoFire).1 =
      ["a\n"] ++ "/* ===== BEGIN_CONFIG\n" ::
        (config_block_lines (1 / 2) drNoFire ++ (END_LINE :: ["z\n"]))
    ∧ ((1 : ℚ) / 2 ≤ drNoFire.g3 →
        mutate_ri_val (1 / 2) drNoFire = config_defaults.recompile_interval) := by
  have h := C2_amended_mutation_from_defaults (1 / 2) drNoFire
    ["a\n"] "/* ===== BEGIN_CONFIG\n" ["LEARNING_RATE=0.080000\n"]
    "  ===== END_CONFIG */\n" ["z\n"]
    (by decide) (by decide) (by decide) (by decide)
  exact ⟨h.1, h.2.2.2⟩

/- ===== claim C3 ===== -/

/-- Claim C3 counterexample: a key whose value fails to parse does NOT keep
its default.  In exC3text the value of LEARNING_RATE is "abc", which atof
turns into 0, so the extracted learning rate is 0 rather than the default
1/20; and the MUTATION_PROB value 0.30 written in the text is extracted as
0 rather than as written. -/
theorem C3_counterexample :
    read_config_from_source exC3text =
      { learning_rate := 0, mutation_prob := 0, recompile_interval := 7 }
    ∧ config_defaults.learning_rate ≠ 0
    ∧ (3 : ℚ) / 10 ≠ 0 := by
  with_unfolding_all decide

/-- Claim C3 (amended): per-field defaulting holds for MISSING keys — a field
whose key prefix appears on no line keeps exactly its own default, and a text
with no begin-marker yields all defaults — but a PRESENT key is set to the
numeric parse of the text after the compared prefix (0 when nothing numeric
is there), not to its default: LEARNING_RATE= and RECOMPILE_INTERVAL= are
read after the equals sign, while a MUTATION_PROB line is read from the
equals sign itself (13-character prefix), giving 0.  The concrete conjunct
shows a region without a MUTATION_PROB line: the mutation probability is the
default and the other two fields are as written. -/
theorem C3_amended_per_field_defaulting :
    (∀ lines, (∀ l ∈ lines, containsSub "BEGIN_CONFIG" l = false) →
      read_config_from_source lines = config_defaults)
    ∧ (∀ lines, (∀ l ∈ lines, strncmp0 (trimLead l) "LEARNING_RATE=" 14 = false) →
      (read_config_from_source lines).learning_rate = config_defaults.learning_rate)
    ∧ (∀ lines, (∀ l ∈ lines, strncmp0 (trimLead l) "MUTATION_PROB=" 13 = false) →
      (read_config_from_source lines).mutation_prob = config_defaults.mutation_prob)
    ∧ (∀ lines, (∀ l ∈ lines, strncmp0 (trimLead l) "RECOMPILE_INTERVAL=" 19 = false) →
      (read_config_from_source lines).recompile_interval =
        config_defaults.recompile_interval)
    ∧ (∀ line cfg, strncmp0 line "LEARNING_RATE=" 14 = true →
        (parse_config_line line cfg).1.learning_rate = atofQ (strDrop line 14))
    ∧ (∀ line cfg, strncmp0 line "MUTATION_PROB=" 13 = true →
        (parse_config_line line cfg).1.mutation_prob = atofQ (strDrop line 13))
    ∧ (∀ line cfg, strncmp0 line "RECOMPILE_INTERVAL=" 19 = true →
        (parse_config_line line cfg).1.recompile_interval = atoiZ (strDrop line 19))
    ∧ read_config_from_source exC3noMP =
        { learning_rate := 7 / 100, mutation_prob := config_defaults.mutation_prob,
          recompile_interval := 7 } := by
  refine ⟨?_, ?_, ?_, ?_, ?_, ?_, ?_, ?_⟩
  · intro lines h; exact read_no_begin lines config_defaults h
  · intro lines h; exact read_keeps_lr lines false config_defaults h
  · intro lines h; exact read_keeps_mp lines false config_defaults h
  · intro lines h; exact read_keeps_ri lines false config_defaults h
  · intro line cfg h; simp [parse_config_line, h]
  · intro line cfg h; simp [parse_config_line, h, mp13_not_lr14 line h]
  · intro line cfg h
    simp [parse_config_line, h, ri19_not_lr14 line h, ri19_not_mp13 line h]
  · with_unfolding_all decide

/-- Claim C3 witness: the amended statement instantiated — a text with no
begin-marker extracts to all defaults, and a MUTATION_PROB line is parsed
from the equals sign on. -/
theorem C3_amended_witness :
    read_config_from_source ["no markers here\n"] = config_defaults
    ∧ (parse_config_line "MUTATION_PROB=0.30\n" config_defaults).1.mutation_prob =
      atofQ (strDrop "MUTATION_PROB=0.30\n" 13) :=
  ⟨C3_amended_per_field_defaulting.1 ["no markers here\n"] (by decide),
   C3_amended_per_field_defaulting.2.2.2.2.2.1 "MUTATION_PROB=0.30\n"
     config_defaults (by decide)⟩

/- ===== claim C4 ===== -/

/-- Claim C4 counterexample: the end-marker line does not survive rewrite
unchanged.  In exC4text the end-marker line is "END_CONFIG here\n"; after
mutate_source_config it is gone, replaced by the hardcoded
"  ===== END_CONFIG */\n". -/
theorem C4_counterexample :
    "END_CONFIG here\n" ∈ exC4text
    ∧ "END_CONFIG here\n" ∉ (mutate_source_config exC4text (1 / 2) drNoFire).1
    ∧ (mutate_source_config exC4text (1 / 2) drNoFire).1 =
        [ "a\n", "x BEGIN_CONFIG\n", "LEARNING_RATE=0.050000\n",
          "MUTATION_PROB=0.500000\n", "RECOMPILE_INTERVAL=10\n",
          "  ===== END_CONFIG */\n", "z\n" ] := by
  with_unfolding_all decide

/-- Claim C4 (amended): for a well-formed region, rewrite keeps every line
before the begin-marker and every line after the end-marker byte-identical,
keeps the begin-marker line itself unchanged, and reports success; the
end-marker line, however, is replaced by the fixed line END_LINE
("  ===== END_CONFIG */"), so it survives unchanged only when it already had
exactly that form. -/
theorem C4_amended_byte_preservation (mp : ℚ) (dr : MutDraws)
    (pre : List String) (b : String) (mid : List String) (e : String)
    (post : List String)
    (hpre : ∀ l ∈ pre, containsSub "BEGIN_CONFIG" l = false)
    (hb : containsSub "BEGIN_CONFIG" b = true)
    (hmid : ∀ l ∈ mid, containsSub "END_CONFIG" l = false)
    (he : containsSub "END_CONFIG" e = true) :
    mutate_source_config (pre ++ b :: (mid ++ e :: post)) mp dr =
      (pre ++ b :: (config_block_lines mp dr ++ (END_LINE :: post)), true)
    ∧ ((mutate_source_config (pre ++ b :: (mid ++ e :: post)) mp dr).1).take
        pre.length = pre
    ∧ ((mutate_source_config (pre ++ b :: (mid ++ e :: post)) mp dr).1).drop
        (pre.length + 5) = post := by
  have hs : mutate_lines mp dr (pre ++ b :: (mid ++ e :: post)) =
      pre ++ b :: (config_block_lines mp dr ++ (END_LINE :: post)) :=
    mutate_lines_shape mp dr pre b mid e post hpre hb hmid he
  refine ⟨?_, ?_, ?_⟩
  · unfold mutate_source_config
    rw [hs]
  · show (mutate_lines mp dr (pre ++ b :: (mid ++ e :: post))).take pre.length = pre
    rw [hs]
    exact List.take_left pre _
  · show (mutate_lines mp dr (pre ++ b :: (mid ++ e :: post))).drop
      (pre.length + 5) = post
    rw [hs]
    have h5 : pre ++ b :: (config_block_lines mp dr ++ (END_LINE :: post)) =
        (pre ++ b :: (config_block_lines mp dr ++ [END_LINE])) ++ post := by
      simp
    rw [h5]
    have hlen : (pre ++ b :: (config_block_lines mp dr ++ [END_LINE])).length =
        pre.length + 5 := by
      simp [config_block_lines]
    rw [List.drop_left' hlen]

/-- Claim C4 witness: the amended statement at a concrete region whose
end-marker line already has the canonical form. -/
theorem C4_amended_witness :
    mutate_source_config
        (["h\n"] ++ "/* ===== BEGIN_CONFIG\n" ::
          (["LEARNING_RATE=0.05\n"] ++ "  ===== END_CONFIG */\n" :: ["t\n"]))
        (1 / 2) drNoFire =
      (["h\n"] ++ "/* ===== BEGIN_CONFIG\n" ::
        (config_block_lines (1 / 2) drNoFire ++ (END_LINE :: ["t\n"])), true) :=
  (C4_amended_byte_preservation (1 / 2) drNoFire ["h\n"] "/* ===== BEGIN_CONFIG\n"
    ["LEARNING_RATE=0.05\n"] "  ===== END_CONFIG */\n" ["t\n"]
    (by decide) (by decide) (by decide) (by decide)).1

/- ===== claim C5 ===== -/

lemma tick_normal_inv (s : SysState) (i : TickIn) (s2 : SysState)
    (h : tick s i = TickOut.normal s2) :
    s2.stm.iter = s.stm.iter + 1 ∧ s2.stm.magic = s.stm.magic ∧
      s2.stm.version = s.stm.version := by
  rcases tick_iter_cases s i with ⟨s3, ht, hp⟩ | ⟨s3, ht, hp⟩ | ⟨s3, c, ht, hp⟩
  · rw [ht] at h
    injection h with h4
    subst h4
    exact hp
  · rw [ht] at h
    exact absurd h (by simp)
  · rw [ht] at h
    exact absurd h (by simp)

lemma tick_replacedOut_inv (s : SysState) (i : TickIn) (s2 : SysState)
    (h : tick s i = TickOut.replacedOut s2) :
    s2.stm.iter = s.stm.iter ∧ s2.stm.magic = s.stm.magic ∧
      s2.stm.version = s.stm.version := by
  rcases tick_iter_cases s i with ⟨s3, ht, hp⟩ | ⟨s3, ht, hp⟩ | ⟨s3, c, ht, hp⟩
  · rw [ht] at h
    exact absurd h (by simp)
  · rw [ht] at h
    injection h with h4
    subst h4
    exact hp
  · rw [ht] at h
    exact absurd h (by simp)

def exC5text : List String :=
  [ "/* ===== BEGIN_CONFIG\n", "LEARNING_RATE=0.050000\n",
    "RECOMPILE_INTERVAL=2\n", "  ===== END_CONFIG */\n" ]

def sC5 : SysState :=
  ⟨{ freshSTM with iter := 2 }, exC5text,
    { learning_rate := 1 / 20, mutation_prob := 1 / 2, recompile_interval := 2 }⟩

def iC5rep : TickIn :=
  { r := 0, dr := drNoFire, buildOk := true, chmodOk := true,
    accessOk := true, execOk := true }

/-- Claim C5 counterexample: a tick on which a replacement occurs contributes
NO increment to the durable iteration count — execl runs before stm->iter++.
At sC5 (iteration 2, interval 2, gate draw 0 below probability 1/2, build
and exec succeeding) the tick replaces the process and the durable iteration
after the replacement generation starts is still 2, not 3. -/
theorem C5_counterexample :
    tickReplaced (tick sC5 iC5rep) = true
    ∧ (contState (tick sC5 iC5rep)).stm.iter = sC5.stm.iter
    ∧ (contState (tick sC5 iC5rep)).stm.iter ≠ sC5.stm.iter + 1 := by
  with_unfolding_all decide

/-- Claim C5 (amended): the durable iteration count never decreases — within
one process lifetime and across any run of ticks crossing replacements
(given an intact magic/version pair, which every tick preserves) — and the
exact accounting is: a tick that continues the loop increments the count by
exactly one, while a tick on which a replacement occurs leaves it unchanged
(exec runs before stm->iter++), so the value after generation 3 equals the
value after generation 1 plus the number of intervening NON-replacement
ticks. -/
theorem C5_amended_iteration_monotone :
    (∀ s i, s.stm.magic = STM_MAGIC → s.stm.version = STM_VERSION →
      s.stm.iter ≤ (contState (tick s i)).stm.iter)
    ∧ (∀ s i s2, tick s i = TickOut.normal s2 → s2.stm.iter = s.stm.iter + 1)
    ∧ (∀ s i s2, s.stm.magic = STM_MAGIC → s.stm.version = STM_VERSION →
        tick s i = TickOut.replacedOut s2 →
        (startGen s2).stm.iter = s.stm.iter)
    ∧ (∀ ins s, s.stm.magic = STM_MAGIC → s.stm.version = STM_VERSION →
        s.stm.iter ≤ (runTicks s ins).stm.iter) := by
  refine ⟨?_, ?_, ?_, runTicks_iter_mono⟩
  · intro s i hm hv
    rcases tick_iter_cases s i with ⟨s2, ht, hit, hmg, hvr⟩ |
      ⟨s2, ht, hit, hmg, hvr⟩ | ⟨s2, c, ht, hit, hmg, hvr⟩
    · rw [ht]
      simp only [contState]
      omega
    · rw [ht]
      simp only [contState]
      rw [startGen_stm s2 (by rw [hmg, hm]) (by rw [hvr, hv])]
      omega
    · rw [ht]
      simp only [contState]
      omega
  · intro s i s2 h
    exact (tick_normal_inv s i s2 h).1
  · intro s i s2 hm hv h
    have hp := tick_replacedOut_inv s i s2 h
    rw [startGen_stm s2 (by rw [hp.2.1, hm]) (by rw [hp.2.2, hv])]
    exact hp.1

/-- Claim C5 witness: the amended statement at a concrete state and run. -/
theorem C5_amended_witness :
    sC5.stm.iter ≤ (contState (tick sC5 iC5rep)).stm.iter
    ∧ sC5.stm.iter ≤ (runTicks sC5 [iC5rep, iC5rep]).stm.iter :=
  ⟨C5_amended_iteration_monotone.1 sC5 iC5rep rfl rfl,
   C5_amended_iteration_monotone.2.2.2 [iC5rep, iC5rep] sC5 rfl rfl⟩

/- ===== claim C6 ===== -/

def sC6 : SysState :=
  ⟨{ freshSTM with iter := 10 }, ["x\n"],
    { learning_rate := 1 / 20, mutation_prob := 1 / 2, recompile_interval := 10 }⟩

def iC6 : TickIn :=
  { r := 1, dr := drNoFire, buildOk := true, chmodOk := true,
    accessOk := true, execOk := true }

/-- Claim C6: the replacement check fires on a tick iff the iteration count
is nonzero and divisible by the (positive) recompile interval — in
particular, with interval 10, iteration 10 fires and iterations 15 and 0 do
not — and when it fires, the mutation path is entered iff the one additional
uniform draw r is below the mutation probability; when the draw is not
below, the tick continues normally: the text resource is untouched and the
iteration advances by one (the in-memory config is re-read from the
unchanged file, main.c line 323). -/
theorem C6_trigger_arithmetic :
    (∀ (it : Nat) (ri : Int), 0 < ri →
      (trigger_fires it ri = true ↔ it ≠ 0 ∧ (ri ∣ (it : Int))))
    ∧ trigger_fires 10 10 = true
    ∧ trigger_fires 15 10 = false
    ∧ trigger_fires 0 10 = false
    ∧ (∀ s i, trigger_fires s.stm.iter s.cfg.recompile_interval = true →
        s.cfg.mutation_prob ≤ i.r →
        tick s i = TickOut.normal
          ⟨{ stm_after_learn s with iter := s.stm.iter + 1 }, s.text,
            read_config_from_source s.text⟩)
    ∧ (∀ s i, trigger_fires s.stm.iter s.cfg.recompile_interval = true →
        i.r < s.cfg.mutation_prob →
        contText (tick s i) =
          (mutate_source_config s.text s.cfg.mutation_prob i.dr).1)
    ∧ (∀ s i, trigger_fires s.stm.iter s.cfg.recompile_interval = false →
        tick s i = TickOut.normal
          ⟨{ stm_after_learn s with iter := s.stm.iter + 1 }, s.text, s.cfg⟩) := by
  refine ⟨trigger_iff, by decide, by decide, by decide, tick_fired_no_mut, ?_,
    tick_not_fired⟩
  intro s i ht hr
  cases hre : recompile_and_exec i.buildOk i.chmodOk i.accessOk i.execOk with
  | returned =>
    rw [tick_mut_returned s i ht hr hre]
    rfl
  | replacedProc =>
    rw [tick_mut_replaced s i ht hr hre]
    rfl
  | fatalExec =>
    rw [tick_mut_fatal s i ht hr hre]
    rfl

/-- Claim C6 witness: the trigger equivalence at iteration 10 with interval
10, and a concrete fired tick whose draw is not below the probability. -/
theorem C6_witness :
    (trigger_fires 10 10 = true ↔ (10 : Nat) ≠ 0 ∧ ((10 : Int) ∣ ((10 : Nat) : Int)))
    ∧ tick sC6 iC6 = TickOut.normal
        ⟨{ stm_after_learn sC6 with iter := sC6.stm.iter + 1 }, sC6.text,
          read_config_from_source sC6.text⟩ :=
  ⟨C6_trigger_arithmetic.1 10 10 (by norm_num),
   C6_trigger_arithmetic.2.2.2.2.1 sC6 iC6 (by decide)
     (by with_unfolding_all decide)⟩

/- ===== claim C7 ===== -/

/-- Claim C7: for every sequence of uniform draws (all that is needed is
that the first jitter draw is nonnegative, as every rand()/RAND_MAX value
is), the proposed configuration is clamped: learning rate strictly positive,
mutation probability within [1/100, 99/100], recompile interval at least 1. -/
theorem C7_mutation_clamps (mp : ℚ) (dr : MutDraws) (hu1 : 0 ≤ dr.u1) :
    0 < mutate_lr_val mp dr
    ∧ 1 / 100 ≤ mutate_mp_val mp dr
    ∧ mutate_mp_val mp dr ≤ 99 / 100
    ∧ 1 ≤ mutate_ri_val mp dr := by
  have hpos : (0 : ℚ) <
      config_defaults.learning_rate * (1 + (dr.u1 - 1 / 2) * (1 / 2)) := by
    have h1 : (0 : ℚ) < 1 + (dr.u1 - 1 / 2) * (1 / 2) := by nlinarith
    have h2 : (0 : ℚ) < config_defaults.learning_rate := by
      norm_num [config_defaults]
    exact mul_pos h2 h1
  refine ⟨?_, ?_, ?_, ?_⟩
  · unfold mutate_lr_val
    dsimp only
    split
    · split
      · norm_num
      · rename_i h2
        exact lt_of_not_le h2
    · exact hpos
  · unfold mutate_mp_val
    split
    · exact le_min (by norm_num) (le_max_left _ _)
    · norm_num [config_defaults]
  · unfold mutate_mp_val
    split
    · exact min_le_left _ _
    · norm_num [config_defaults]
  · unfold mutate_ri_val
    split
    · exact le_max_left _ _
    · norm_num [config_defaults]

/-- Claim C7 witness: the clamps at a concrete draw vector. -/
theorem C7_witness :
    0 < mutate_lr_val (1 / 2) drNoFire
    ∧ 1 / 100 ≤ mutate_mp_val (1 / 2) drNoFire
    ∧ mutate_mp_val (1 / 2) drNoFire ≤ 99 / 100
    ∧ 1 ≤ mutate_ri_val (1 / 2) drNoFire :=
  C7_mutation_clamps (1 / 2) drNoFire (by norm_num [drNoFire])

/- ===== claim C8 ===== -/

def exC8text : List String :=
  [ "/* ===== BEGIN_CONFIG\n", "LEARNING_RATE=0.05\n",
    "  ===== END_CONFIG */\n" ]

def sC8 : SysState :=
  ⟨{ freshSTM with iter := 4 }, exC8text,
    { learning_rate := 1 / 20, mutation_prob := 1 / 2, recompile_interval := 2 }⟩

def iC8 : TickIn :=
  { r := 0, dr := drNoFire, buildOk := false, chmodOk := true,
    accessOk := true, execOk := true }

/-- Claim C8: controller failure semantics.  A nonzero build exit makes
recompile_and_exec return to the caller; on such a tick the loop continues
(normal outcome, iteration advances) with the already-mutated text left in
place — the config for the next tick is even re-read from that mutated text,
not repaired.  If build and both verification steps succeed but the exec
call itself fails, the tick ends in the fatal outcome with exit status 1,
and a run of ticks stops at that state instead of resuming the loop. -/
theorem C8_failure_semantics :
    (∀ c a e, recompile_and_exec false c a e = ExecOutcome.returned)
    ∧ recompile_and_exec true true true false = ExecOutcome.fatalExec
    ∧ (∀ s i, trigger_fires s.stm.iter s.cfg.recompile_interval = true →
        i.r < s.cfg.mutation_prob → i.buildOk = false →
        tick s i = TickOut.normal
          ⟨{ stm_after_learn s with iter := s.stm.iter + 1 },
            (mutate_source_config s.text s.cfg.mutation_prob i.dr).1,
            read_config_from_source
              (mutate_source_config s.text s.cfg.mutation_prob i.dr).1⟩)
    ∧ (∀ s i, trigger_fires s.stm.iter s.cfg.recompile_interval = true →
        i.r < s.cfg.mutation_prob → i.buildOk = true → i.chmodOk = true →
        i.accessOk = true → i.execOk = false →
        tick s i = TickOut.fatalOut
          ⟨stm_after_learn s,
            (mutate_source_config s.text s.cfg.mutation_prob i.dr).1, s.cfg⟩ 1)
    ∧ (∀ s i is s2 c, tick s i = TickOut.fatalOut s2 c →
        runTicks s (i :: is) = s2) := by
  refine ⟨fun c a e => rfl, rfl, tick_mut_build_fail, tick_mut_exec_fail, ?_⟩
  intro s i is s2 c h
  simp [runTicks, h]

/-- Claim C8 witness: a concrete fired tick whose build fails — the loop
continues with the mutated text in place. -/
theorem C8_witness :
    tick sC8 iC8 = TickOut.normal
      ⟨{ stm_after_learn sC8 with iter := sC8.stm.iter + 1 },
        (mutate_source_config sC8.text sC8.cfg.mutation_prob iC8.dr).1,
        read_config_from_source
          (mutate_source_config sC8.text sC8.cfg.mutation_prob iC8.dr).1⟩ :=
  C8_failure_semantics.2.2.1 sC8 iC8 (by decide)
    (by with_unfolding_all decide) rfl

/- ===== claim C9 ===== -/

/-- Claim C9: the learner formulas.  predict(x) = weight * x + bias;
update(x, reward, lr) computes error = reward - predict(x) once, then moves
weight by lr * error * x, bias by lr * error, and the running reward to
0.99 * running_reward + 0.01 * reward, leaving the iteration count alone.
Concretely, from the fresh record (weight 1/10, bias 0): predict(-9/2) =
-9/20 = -0.45, the update error is 29/20 = 1.45, and updating with reward 1
and learning rate 1/20 gives weight -181/800 = -0.22625 and bias 29/400 =
0.0725 exactly. -/
theorem C9_learner_formula :
    (∀ (s : stm_t) (x : ℚ), forward s x = s.weight * x + s.bias)
    ∧ (∀ (s : stm_t) (x reward lr : ℚ),
        (update_weights s x reward lr).weight =
          s.weight + lr * (reward - (s.weight * x + s.bias)) * x
        ∧ (update_weights s x reward lr).bias =
          s.bias + lr * (reward - (s.weight * x + s.bias))
        ∧ (update_weights s x reward lr).running_reward =
          99 / 100 * s.running_reward + 1 / 100 * reward
        ∧ (update_weights s x reward lr).iter = s.iter)
    ∧ forward freshSTM (-(9 / 2)) = -(9 / 20)
    ∧ (1 : ℚ) - forward freshSTM (-(9 / 2)) = 29 / 20
    ∧ (update_weights freshSTM (-(9 / 2)) 1 (1 / 20)).weight = -(181 / 800)
    ∧ (update_weights freshSTM (-(9 / 2)) 1 (1 / 20)).bias = 29 / 400 := by
  refine ⟨fun s x => rfl, fun s x reward lr => ⟨rfl, ?_, rfl, rfl⟩, ?_, ?_, ?_, ?_⟩
  · simp [update_weights, forward]
  · with_unfolding_all decide
  · with_unfolding_all decide
  · with_unfolding_all decide
  · with_unfolding_all decide

/- ===== claim C10 ===== -/

def exC10text : List String := ["int x;\n", "int y;\n"]

def sC10 : SysState :=
  ⟨{ freshSTM with iter := 2 }, exC10text,
    { learning_rate := 1 / 20, mutation_prob := 1 / 2, recompile_interval := 2 }⟩

def iC10 : TickIn :=
  { r := 0, dr := drNoFire, buildOk := true, chmodOk := true,
    accessOk := true, execOk := true }

/-- Claim C10: on a text with no begin-marker line, mutate_source_config
copies every line through unchanged and still returns true; consequently a
fired tick whose gate draw is below the probability proceeds to the build
and process-replacement steps (here: all succeed, so the tick ends in the
replaced outcome) even though the text was not changed at all. -/
theorem C10_no_marker_copies_and_proceeds :
    (∀ (lines : List String) (mp : ℚ) (dr : MutDraws),
      (∀ l ∈ lines, containsSub "BEGIN_CONFIG" l = false) →
      mutate_source_config lines mp dr = (lines, true))
    ∧ (∀ s i, (∀ l ∈ s.text, containsSub "BEGIN_CONFIG" l = false) →
        trigger_fires s.stm.iter s.cfg.recompile_interval = true →
        i.r < s.cfg.mutation_prob → i.buildOk = true → i.chmodOk = true →
        i.accessOk = true → i.execOk = true →
        tick s i = TickOut.replacedOut ⟨stm_after_learn s, s.text, s.cfg⟩) := by
  constructor
  · intro lines mp dr h
    unfold mutate_source_config
    rw [mutate_lines_id mp dr lines h]
  · intro s i h ht hr hb hc ha he
    have hm : (mutate_source_config s.text s.cfg.mutation_prob i.dr).1 = s.text := by
      unfold mutate_source_config
      rw [mutate_lines_id s.cfg.mutation_prob i.dr s.text h]
    have hre : recompile_and_exec i.buildOk i.chmodOk i.accessOk i.execOk =
        ExecOutcome.replacedProc := by
      simp [recompile_and_exec, hb, hc, ha, he]
    rw [tick_mut_replaced s i ht hr hre, hm]

/-- Claim C10 witness: the no-marker copy and the resulting replacement at a
concrete markerless text. -/
theorem C10_witness :
    mutate_source_config exC10text ((1 : ℚ) / 2) drNoFire = (exC10text, true)
    ∧ tick sC10 iC10 = TickOut.replacedOut
        ⟨stm_after_learn sC10, sC10.text, sC10.cfg⟩ :=
  ⟨C10_no_marker_copies_and_proceeds.1 exC10text ((1 : ℚ) / 2) drNoFire (by decide),
   C10_no_marker_copies_and_proceeds.2 sC10 iC10 (by decide) (by decide)
     (by with_unfolding_all decide) rfl rfl rfl rfl⟩

end Agi
